import Mathlib

/-!
# Kinesis Data Firehose destination binding — verification development

A shallow embedding of the destination-binding layer of the
`@aws-cdk/aws-kinesisfirehose` and `@aws-cdk/aws-kinesisfirehose-destinations`
modules, together with theorems settling the specification's claims about it.

Conventions of the embedding:
* `Duration` and `Size` carry their scalar value (seconds, mebibytes); the
  destination code only ever reads them through `toSeconds` / `toMebibytes`.
* TypeScript functions that `throw` are embedded as `Except String`, the
  error carrying the exact message string of the source.
* Side effects (resource creation, IAM grants) are returned explicitly as
  lists of `CreatedResource` / `GrantAction` values; a source statement that
  creates or grants contributes one element, and a body with no such
  statement contributes none.
* JS truthiness is preserved where it matters: object-valued optionals
  (`Duration`, `Size`, buckets, log groups) are truthy exactly when present,
  while the number-valued `retries` is falsy at `0`.
-/

namespace Firehose

/-- Seconds-valued duration (the CDK `Duration`, read through `toSeconds`). -/
structure Duration where
  seconds : Nat
deriving Repr, DecidableEq

def Duration.toSeconds (d : Duration) : Nat := d.seconds

/-- Mebibyte-valued size (the CDK `Size`, read through `toMebibytes`). -/
structure Size where
  mebibytes : Nat
deriving Repr, DecidableEq

def Size.toMebibytes (s : Size) : Nat := s.mebibytes

/-- `CfnDeliveryStream.BufferingHintsProperty`: both fields optional. -/
structure BufferingHintsProperty where
  intervalInSeconds : Option Nat := none
  sizeInMBs : Option Nat := none
deriving Repr, DecidableEq

/-- `DestinationBase.createBufferingHints` of
`packages/@aws-cdk/aws-kinesisfirehose/lib/destination.ts` (lines 224-238):
returns `undefined` when both inputs are absent, validates each supplied
input against its range, and otherwise populates exactly the supplied
fields. A `Duration`/`Size` object is truthy whenever present. -/
def createBufferingHints (bufferingInterval : Option Duration) (bufferingSize : Option Size) :
    Except String (Option BufferingHintsProperty) :=
  if bufferingInterval = none ∧ bufferingSize = none then
    .ok none
  else if bufferingInterval.any (fun d => decide (d.toSeconds < 60) || decide (900 < d.toSeconds)) then
    .error "Buffering interval must be between 1 and 15 minutes"
  else if bufferingSize.any (fun z => decide (z.toMebibytes < 1) || decide (128 < z.toMebibytes)) then
    .error "Buffering size must be between 1 and 128 MBs"
  else
    .ok (some { intervalInSeconds := bufferingInterval.map Duration.toSeconds
              , sizeInMBs := bufferingSize.map Size.toMebibytes })

/-- `validateS3Props` of the historical S3 destination revision
(`src/unnamed/part_005`, lines 114-124); it reads only the two buffering
fields of `S3DestinationProps`, which are passed here directly. -/
def validateS3Props (bufferingInterval : Option Duration) (bufferingSize : Option Size) :
    Except String Unit :=
  if bufferingInterval.any (fun d => decide (d.toSeconds < 60) || decide (900 < d.toSeconds)) then
    .error "Invalid bufferingInterval. Valid range: [60, 900]"
  else if bufferingSize.any (fun z => decide (z.toMebibytes < 1) || decide (128 < z.toMebibytes)) then
    .error "Invalid bufferingSize. Valid range: [1, 128]"
  else
    .ok ()

/-- C1. `createBufferingHints` fails iff a supplied interval is outside
[60, 900] seconds or a supplied size is outside [1, 128] MiB; both absent
gives absent; a successful non-absent result has at least one input present
and populates exactly the supplied fields with no defaulting. -/
theorem createBufferingHints_spec (i : Option Duration) (s : Option Size) :
    ((∃ e, createBufferingHints i s = .error e) ↔
      ((∃ d, i = some d ∧ (d.toSeconds < 60 ∨ 900 < d.toSeconds)) ∨
       (∃ z, s = some z ∧ (z.toMebibytes < 1 ∨ 128 < z.toMebibytes)))) ∧
    (i = none ∧ s = none → createBufferingHints i s = .ok none) ∧
    (∀ h, createBufferingHints i s = .ok (some h) →
      (i.isSome ∨ s.isSome) ∧
      h.intervalInSeconds = i.map Duration.toSeconds ∧
      h.sizeInMBs = s.map Size.toMebibytes) := by
  rcases i with _ | d <;> rcases s with _ | z <;>
    simp only [createBufferingHints, Option.any_some, Option.any_none, Option.map_some,
      Option.map_none, Option.isSome] <;>
    refine ⟨?_, ?_, ?_⟩ <;>
    first
    | (intro h hh; split_ifs at hh <;> simp_all <;> (subst hh; exact ⟨rfl, rfl⟩))
    | (split_ifs <;> simp_all <;> omega)
    | simp_all

/-- A CloudWatch log group as the destination code sees it: either one the
caller provided, or one the binder created itself via
`new logs.LogGroup(scope, 'Log Group')` inside the given scope. -/
inductive LogGroupRef
  | provided (name : String)
  | owned (scopeId : String)
deriving Repr, DecidableEq

def LogGroupRef.logGroupName : LogGroupRef → String
  | .provided n => n
  | .owned scopeId => scopeId ++ "/Log Group"

/-- `logGroup.addStream(streamId).logStreamName`: the stream is a child
construct of the group identified by `streamId`. -/
def LogGroupRef.addStreamName (g : LogGroupRef) (streamId : String) : String :=
  g.logGroupName ++ "/" ++ streamId

/-- An S3 bucket: provided by the caller, or created by the binder via
`new s3.Bucket(scope, 'Backup Bucket')`. -/
inductive BucketRef
  | provided (arn : String)
  | owned (scopeId : String)
deriving Repr, DecidableEq

def BucketRef.bucketArn : BucketRef → String
  | .provided a => a
  | .owned scopeId => scopeId ++ "/Backup Bucket/Arn"

/-- A resource the binder creates as a side effect (`new logs.LogGroup`,
`logGroup.addStream`, `new s3.Bucket`). -/
inductive CreatedResource
  | logGroup (scopeId : String)
  | logStream (group : LogGroupRef) (streamId : String)
  | bucket (scopeId : String)
deriving Repr, DecidableEq

def CreatedResource.isLogGroup : CreatedResource → Bool
  | .logGroup _ => true
  | _ => false

def CreatedResource.isLogStream : CreatedResource → Bool
  | .logStream _ _ => true
  | _ => false

/-- Number of log groups among the created resources. -/
def countLogGroups (rs : List CreatedResource) : Nat :=
  (rs.filter CreatedResource.isLogGroup).length

/-- Number of log streams among the created resources. -/
def countLogStreams (rs : List CreatedResource) : Nat :=
  (rs.filter CreatedResource.isLogStream).length

/-- An IAM grant the binder performs (`logGroup.grantWrite(deliveryStream)`,
`bucket.grantReadWrite(...)`). The grantee is the pipeline principal. -/
inductive GrantAction
  | grantWrite (grantee : String) (group : LogGroupRef)
  | grantReadWrite (grantee : String) (bucketArn : String)
deriving Repr, DecidableEq

/-- `CfnDeliveryStream.CloudWatchLoggingOptionsProperty`; the code always
sets all three fields when it emits one. -/
structure CloudWatchLoggingOptionsProperty where
  enabled : Bool
  logGroupName : String
  logStreamName : String
deriving Repr, DecidableEq

/-- `BackupMode` of `destination.ts` (lines 45-60). -/
inductive BackupMode
  | ALL
  | FAILED
  | DISABLED
deriving Repr, DecidableEq

/-- A parameter of a processing-configuration processor
(`{parameterName, parameterValue}`). -/
structure ProcessorParameter where
  parameterName : String
  parameterValue : String
deriving Repr, DecidableEq

/-- `DataProcessorConfig` of `processor.ts`: what `processor.bind` hands the
destination (type, identifying parameter, the optional tuning inputs).
`retries` is a JS number. -/
structure DataProcessorConfig where
  processorType : String
  processorIdentifier : ProcessorParameter
  bufferInterval : Option Duration := none
  bufferSize : Option Size := none
  retries : Option Nat := none
deriving Repr, DecidableEq

/-- `DestinationProps` of `destination.ts` (lines 95-145). `processors` are
represented by the configs their `bind` yields; `backupPfx` models the
`backupPrefix` field (renamed: `prefix` is a Lean keyword). -/
structure DestinationProps where
  logging : Option Bool := none
  logGroup : Option LogGroupRef := none
  processors : Option (List DataProcessorConfig) := none
  backup : Option BackupMode := none
  backupBucket : Option BucketRef := none
  backupPfx : Option String := none
deriving Repr, DecidableEq

/-- `DestinationBase.createLoggingOptions` (`destination.ts` lines 157-175).
`state` is the instance's private `logGroup` memo; the result carries the
configuration fragment, the updated memo, the resources created and the
grants performed by this call. The TS resolution
`this.logGroup = this.logGroup ?? this.props.logGroup ?? new LogGroup(...)`
is mirrored in `lg`. -/
def createLoggingOptions (scopeId : String) (props : DestinationProps)
    (deliveryStream : String) (streamId : String) (state : Option LogGroupRef) :
    Except String (Option CloudWatchLoggingOptionsProperty × Option LogGroupRef ×
      List CreatedResource × List GrantAction) :=
  if props.logging = some false ∧ props.logGroup.isSome then
    .error "Destination logging cannot be set to false when logGroup is provided"
  else if props.logging ≠ some false ∨ props.logGroup.isSome then
    let resolved : LogGroupRef × List CreatedResource :=
      match state with
      | some g => (g, [])
      | none =>
        match props.logGroup with
        | some g => (g, [])
        | none => (LogGroupRef.owned scopeId, [CreatedResource.logGroup scopeId])
    .ok (some { enabled := true
              , logGroupName := resolved.1.logGroupName
              , logStreamName := resolved.1.addStreamName streamId }
        , some resolved.1
        , resolved.2 ++ [CreatedResource.logStream resolved.1 streamId]
        , [GrantAction.grantWrite deliveryStream resolved.1])
  else
    .ok (none, state, [], [])

/-- Two successive `createLoggingOptions` calls on the same binder instance
(the memo of the first call is threaded into the second), as a destination
performing primary-delivery and backup-delivery logging does. Returns both
fragments, the final memo, and the concatenated effects. -/
def createLoggingOptionsTwice (scopeId : String) (props : DestinationProps)
    (deliveryStream : String) (streamId1 streamId2 : String) :
    Except String (Option CloudWatchLoggingOptionsProperty ×
      Option CloudWatchLoggingOptionsProperty × Option LogGroupRef ×
      List CreatedResource × List GrantAction) :=
  match createLoggingOptions scopeId props deliveryStream streamId1 none with
  | .error e => .error e
  | .ok (c1, st1, r1, g1) =>
    match createLoggingOptions scopeId props deliveryStream streamId2 st1 with
    | .error e => .error e
    | .ok (c2, st2, r2, g2) => .ok (c1, c2, st2, r1 ++ r2, g1 ++ g2)

/-- C6. `createLoggingOptions` fails iff logging is explicitly false while a
log group is provided; with logging explicitly false and no group it returns
absent, leaves the memo untouched and creates/grants nothing; in every other
case it returns an enabled configuration referencing a log group and a log
stream derived from `streamId`. -/
theorem createLoggingOptions_spec (scopeId : String) (props : DestinationProps)
    (ds streamId : String) (st : Option LogGroupRef) :
    ((∃ e, createLoggingOptions scopeId props ds streamId st = .error e) ↔
      props.logging = some false ∧ props.logGroup.isSome) ∧
    (props.logging = some false ∧ props.logGroup = none →
      createLoggingOptions scopeId props ds streamId st = .ok (none, st, [], [])) ∧
    (props.logging ≠ some false →
      ∃ lg rs gs, createLoggingOptions scopeId props ds streamId st =
        .ok (some { enabled := true
                  , logGroupName := lg.logGroupName
                  , logStreamName := lg.addStreamName streamId }
            , some lg, rs, gs)) := by
  refine ⟨?_, ?_, ?_⟩
  · constructor
    · rintro ⟨e, he⟩
      by_contra hc
      rw [createLoggingOptions.eq_def, if_neg hc] at he
      split_ifs at he <;> simp_all
    · rintro ⟨h1, h2⟩
      exact ⟨_, by rw [createLoggingOptions.eq_def, if_pos ⟨h1, h2⟩]⟩
  · rintro ⟨h1, h2⟩
    rw [createLoggingOptions.eq_def,
      if_neg (by simp [h2]), if_neg (by simp [h1, h2])]
  · intro h1
    rw [createLoggingOptions.eq_def, if_neg (by simp [h1]), if_pos (Or.inl h1)]
    exact ⟨_, _, _, rfl⟩

/-- C5 does not hold for every binder instance: a binder whose `logging` is
explicitly `false` (and no log group) performs two calls that create no log
group and no log stream at all, not one group and two streams; and a binder
given an existing log group creates no log group of its own. -/
theorem createLoggingOptionsTwice_counterexample :
    (createLoggingOptionsTwice "Destination" { logging := some false } "ds" "first" "second" =
      .ok (none, none, none, ([] : List CreatedResource), ([] : List GrantAction))) ∧
    countLogGroups [] = 0 ∧ countLogStreams [] = 0 ∧
    (createLoggingOptionsTwice "Destination"
        { logGroup := some (LogGroupRef.provided "existing") } "ds" "first" "second" =
      .ok (some { enabled := true
                , logGroupName := (LogGroupRef.provided "existing").logGroupName
                , logStreamName := (LogGroupRef.provided "existing").addStreamName "first" }
          , some { enabled := true
                 , logGroupName := (LogGroupRef.provided "existing").logGroupName
                 , logStreamName := (LogGroupRef.provided "existing").addStreamName "second" }
          , some (LogGroupRef.provided "existing")
          , [CreatedResource.logStream (LogGroupRef.provided "existing") "first",
             CreatedResource.logStream (LogGroupRef.provided "existing") "second"]
          , [GrantAction.grantWrite "ds" (LogGroupRef.provided "existing"),
             GrantAction.grantWrite "ds" (LogGroupRef.provided "existing")])) ∧
    countLogGroups [CreatedResource.logStream (LogGroupRef.provided "existing") "first",
                    CreatedResource.logStream (LogGroupRef.provided "existing") "second"] = 0 :=
  ⟨rfl, rfl, rfl, rfl, rfl⟩

/-- The log group a fresh binder resolves on its first logging call: the
provided one when present, else a newly created owned group. -/
def resolvedGroup (scopeId : String) (props : DestinationProps) : LogGroupRef :=
  match props.logGroup with
  | some g => g
  | none => LogGroupRef.owned scopeId

/-- The log-group creations performed by a fresh binder's first logging call:
none when a group was provided, one owned group otherwise. -/
def groupCreation (scopeId : String) (props : DestinationProps) : List CreatedResource :=
  match props.logGroup with
  | some _ => []
  | none => [CreatedResource.logGroup scopeId]

/-- C5 (amended). On a binder instance whose logging is not explicitly
disabled, two `createLoggingOptions` calls with different stream ids share a
single log group — created by the first call exactly when no log group was
provided, and reused (memoized) by the second — and create two distinct log
streams under that group. -/
theorem createLoggingOptionsTwice_amended (scopeId : String) (props : DestinationProps)
    (ds streamId1 streamId2 : String) (hlog : props.logging ≠ some false)
    (hne : streamId1 ≠ streamId2) :
    ∃ lg c1 c2 rs gs,
      createLoggingOptionsTwice scopeId props ds streamId1 streamId2 =
        .ok (some c1, some c2, some lg, rs, gs) ∧
      c1.logGroupName = lg.logGroupName ∧
      c2.logGroupName = lg.logGroupName ∧
      countLogGroups rs = (if props.logGroup.isSome then 0 else 1) ∧
      CreatedResource.logStream lg streamId1 ∈ rs ∧
      CreatedResource.logStream lg streamId2 ∈ rs ∧
      countLogStreams rs = 2 ∧
      CreatedResource.logStream lg streamId1 ≠ CreatedResource.logStream lg streamId2 := by
  have hfirst : ¬(props.logging = some false ∧ props.logGroup.isSome) := by
    rintro ⟨h, _⟩; exact hlog h
  have hone : createLoggingOptions scopeId props ds streamId1 none =
      .ok (some { enabled := true
                , logGroupName := (resolvedGroup scopeId props).logGroupName
                , logStreamName := (resolvedGroup scopeId props).addStreamName streamId1 }
          , some (resolvedGroup scopeId props)
          , groupCreation scopeId props ++
              [CreatedResource.logStream (resolvedGroup scopeId props) streamId1]
          , [GrantAction.grantWrite ds (resolvedGroup scopeId props)]) := by
    rw [createLoggingOptions.eq_def, if_neg hfirst, if_pos (Or.inl hlog)]
    rcases hg : props.logGroup with _ | g <;> simp [resolvedGroup, groupCreation, hg]
  have htwo : createLoggingOptions scopeId props ds streamId2
      (some (resolvedGroup scopeId props)) =
      .ok (some { enabled := true
                , logGroupName := (resolvedGroup scopeId props).logGroupName
                , logStreamName := (resolvedGroup scopeId props).addStreamName streamId2 }
          , some (resolvedGroup scopeId props)
          , [CreatedResource.logStream (resolvedGroup scopeId props) streamId2]
          , [GrantAction.grantWrite ds (resolvedGroup scopeId props)]) := by
    rw [createLoggingOptions.eq_def, if_neg hfirst, if_pos (Or.inl hlog)]
    simp
  refine ⟨resolvedGroup scopeId props
        , { enabled := true
          , logGroupName := (resolvedGroup scopeId props).logGroupName
          , logStreamName := (resolvedGroup scopeId props).addStreamName streamId1 }
        , { enabled := true
          , logGroupName := (resolvedGroup scopeId props).logGroupName
          , logStreamName := (resolvedGroup scopeId props).addStreamName streamId2 }
        , (groupCreation scopeId props ++
            [CreatedResource.logStream (resolvedGroup scopeId props) streamId1]) ++
            [CreatedResource.logStream (resolvedGroup scopeId props) streamId2]
        , [GrantAction.grantWrite ds (resolvedGroup scopeId props)] ++
            [GrantAction.grantWrite ds (resolvedGroup scopeId props)]
        , ?_, rfl, rfl, ?_, ?_, ?_, ?_, ?_⟩
  · simp only [createLoggingOptionsTwice, hone, htwo]
  · rcases hg : props.logGroup with _ | g <;>
      simp [groupCreation, hg, countLogGroups, CreatedResource.isLogGroup]
  · rcases props.logGroup with _ | g <;> simp [groupCreation]
  · rcases props.logGroup with _ | g <;> simp [groupCreation]
  · rcases hg : props.logGroup with _ | g <;>
      simp [groupCreation, hg, countLogStreams, CreatedResource.isLogStream]
  · simp [hne]

/-- Witness for the amended C5 at a concrete binder (default props, stream
ids "S3" and "Redshift"). -/
theorem createLoggingOptionsTwice_amended_witness :
    ∃ lg c1 c2 rs gs,
      createLoggingOptionsTwice "Destination" {} "ds" "S3" "Redshift" =
        .ok (some c1, some c2, some lg, rs, gs) ∧
      c1.logGroupName = lg.logGroupName ∧
      c2.logGroupName = lg.logGroupName ∧
      countLogGroups rs = (if (DestinationProps.logGroup {}).isSome then 0 else 1) ∧
      CreatedResource.logStream lg "S3" ∈ rs ∧
      CreatedResource.logStream lg "Redshift" ∈ rs ∧
      countLogStreams rs = 2 ∧
      CreatedResource.logStream lg "S3" ≠ CreatedResource.logStream lg "Redshift" :=
  createLoggingOptionsTwice_amended "Destination" {} "ds" "S3" "Redshift"
    (by decide) (by decide)

/-- One processor of `CfnDeliveryStream.ProcessingConfigurationProperty`. -/
structure ProcessorProperty where
  type : String
  parameters : List ProcessorParameter
deriving Repr, DecidableEq

/-- `CfnDeliveryStream.ProcessingConfigurationProperty`. -/
structure ProcessingConfigurationProperty where
  enabled : Bool
  processors : List ProcessorProperty
deriving Repr, DecidableEq

/-- `DestinationBase.createProcessingConfig` (`destination.ts` lines
177-207). `roleArn` is `(deliveryStream.grantPrincipal as iam.Role).roleArn`;
`processors` holds the configs the processors' `bind` returned. The three
conditional pushes keep the source's JS truthiness: `bufferInterval` and
`bufferSize` are objects (truthy whenever present), while `retries` is a
number, so a supplied `0` is falsy and skipped. -/
def createProcessingConfig (roleArn : String)
    (processors : Option (List DataProcessorConfig)) :
    Except String (Option ProcessingConfigurationProperty) :=
  match processors with
  | none => .ok none
  | some ps =>
    if 1 < ps.length then
      .error "Only one processor is allowed per delivery stream destination"
    else if 0 < ps.length then
      .ok (some
        { enabled := true
        , processors := ps.map fun processorConfig =>
            { type := processorConfig.processorType
            , parameters :=
                [{ parameterName := "RoleArn", parameterValue := roleArn }] ++
                [processorConfig.processorIdentifier] ++
                (match processorConfig.bufferInterval with
                 | some d => [{ parameterName := "BufferIntervalInSeconds"
                              , parameterValue := toString d.toSeconds }]
                 | none => []) ++
                (match processorConfig.bufferSize with
                 | some z => [{ parameterName := "BufferSizeInMBs"
                              , parameterValue := toString z.toMebibytes }]
                 | none => []) ++
                (match processorConfig.retries with
                 | some r =>
                   if r ≠ 0 then
                     [{ parameterName := "NumberOfRetries", parameterValue := toString r }]
                   else []
                 | none => []) } })
    else .ok none

/-- C2. `createProcessingConfig` fails iff more than one processor is
supplied; an absent or empty list gives absent; for exactly one processor the
result is enabled and its parameter list starts with the `RoleArn` parameter
(the pipeline principal's role ARN), then the processor's identifying
parameter, then only the optional parameters actually supplied, in the fixed
order buffer-interval, buffer-size, retries, each serialized as its decimal
string (a supplied retries of 0 is falsy in the source and is omitted). -/
theorem createProcessingConfig_spec (roleArn : String)
    (processors : Option (List DataProcessorConfig)) :
    ((∃ e, createProcessingConfig roleArn processors = .error e) ↔
      (∃ l, processors = some l ∧ 1 < l.length)) ∧
    (processors = none ∨ processors = some [] →
      createProcessingConfig roleArn processors = .ok none) ∧
    (∀ p, processors = some [p] →
      ∃ tail,
        createProcessingConfig roleArn processors = .ok (some
          { enabled := true
          , processors := [{ type := p.processorType
                           , parameters :=
                               { parameterName := "RoleArn", parameterValue := roleArn } ::
                               p.processorIdentifier :: tail }] }) ∧
        ∃ a b c, tail = a ++ b ++ c ∧
          ((p.bufferInterval = none ∧ a = []) ∨
            (∃ d, p.bufferInterval = some d ∧
              a = [{ parameterName := "BufferIntervalInSeconds"
                   , parameterValue := toString d.toSeconds }])) ∧
          ((p.bufferSize = none ∧ b = []) ∨
            (∃ z, p.bufferSize = some z ∧
              b = [{ parameterName := "BufferSizeInMBs"
                   , parameterValue := toString z.toMebibytes }])) ∧
          (((p.retries = none ∨ p.retries = some 0) ∧ c = []) ∨
            (∃ r, p.retries = some r ∧ r ≠ 0 ∧
              c = [{ parameterName := "NumberOfRetries"
                   , parameterValue := toString r }]))) := by
  refine ⟨?_, ?_, ?_⟩
  · constructor
    · rintro ⟨e, he⟩
      rcases processors with _ | ps
      · simp [createProcessingConfig] at he
      · refine ⟨ps, rfl, ?_⟩
        by_contra hlen
        rw [createProcessingConfig, if_neg hlen] at he
        split_ifs at he <;> simp_all
    · rintro ⟨l, rfl, hl⟩
      exact ⟨_, by rw [createProcessingConfig, if_pos hl]⟩
  · rintro (rfl | rfl) <;> simp [createProcessingConfig]
  · rintro p rfl
    refine ⟨_, by rw [createProcessingConfig]; rfl, _, _, _, rfl, ?_, ?_, ?_⟩
    · rcases p.bufferInterval with _ | d
      · exact Or.inl ⟨rfl, rfl⟩
      · exact Or.inr ⟨d, rfl, rfl⟩
    · rcases p.bufferSize with _ | z
      · exact Or.inl ⟨rfl, rfl⟩
      · exact Or.inr ⟨z, rfl, rfl⟩
    · rcases hr : p.retries with _ | r
      · exact Or.inl ⟨Or.inl rfl, by simp [hr]⟩
      · by_cases h0 : r = 0
        · exact Or.inl ⟨Or.inr (by rw [h0]), by simp [h0]⟩
        · exact Or.inr ⟨r, rfl, h0, by simp [h0]⟩

/-- `CfnDeliveryStream.EncryptionConfigurationProperty`: either a KMS key or
the literal `NoEncryption` marker. -/
inductive EncryptionConfigurationProperty
  | kmsEncryptionConfig (awskmsKeyArn : String)
  | noEncryptionConfig
deriving Repr, DecidableEq

/-- `CfnDeliveryStream.S3DestinationConfigurationProperty` as far as this
repository's code sets it. `pfx`/`errorOutputPfx` model the
`prefix`/`errorOutputPrefix` fields (renamed: `prefix` is a Lean keyword). -/
structure S3DestinationConfigurationProperty where
  bucketArn : String
  roleArn : String
  pfx : Option String := none
  errorOutputPfx : Option String := none
  compressionFormat : Option String := none
  bufferingHints : Option BufferingHintsProperty := none
  cloudWatchLoggingOptions : Option CloudWatchLoggingOptionsProperty := none
  encryptionConfiguration : Option EncryptionConfigurationProperty := none
deriving Repr, DecidableEq

/-- `DestinationBase.createBackupConfig` (`destination.ts` lines 209-222).
The body resolves the bucket (`backupBucket ?? new s3.Bucket(scope, 'Backup
Bucket')`) and returns `{bucketArn, roleArn, prefix}`; it contains no grant
statement and sets no other field, so the effect lists record exactly that:
a bucket creation when none was provided, and no grants. -/
def createBackupConfig (scopeId : String) (props : DestinationProps) (roleArn : String) :
    Except String (Option S3DestinationConfigurationProperty ×
      List CreatedResource × List GrantAction) :=
  if props.backup = some BackupMode.DISABLED ∧ props.backupBucket.isSome then
    .error "Destination backup cannot be set to DISABLED when backupBucket is provided"
  else if (props.backup ≠ none ∧ props.backup ≠ some BackupMode.DISABLED) ∨
      props.backupBucket.isSome then
    let resolved : BucketRef × List CreatedResource :=
      match props.backupBucket with
      | some b => (b, [])
      | none => (BucketRef.owned scopeId, [CreatedResource.bucket scopeId])
    .ok (some { bucketArn := resolved.1.bucketArn
              , roleArn := roleArn
              , pfx := props.backupPfx }
        , resolved.2, [])
  else
    .ok (none, [], [])

/-- C3 fails as stated: with `backup = ALL` and no bucket, `createBackupConfig`
creates and references an owned bucket but performs no read/write grant, and
the configuration it returns nests no buffering hints, no logging, no
compression and no encryption — only bucketArn, roleArn and the prefix. -/
theorem createBackupConfig_counterexample :
    createBackupConfig "Destination" { backup := some BackupMode.ALL } "role-arn" =
      .ok (some { bucketArn := (BucketRef.owned "Destination").bucketArn
                , roleArn := "role-arn"
                , pfx := none
                , errorOutputPfx := none
                , compressionFormat := none
                , bufferingHints := none
                , cloudWatchLoggingOptions := none
                , encryptionConfiguration := none }
          , [CreatedResource.bucket "Destination"]
          , ([] : List GrantAction)) := rfl

/-- C3 (amended). `createBackupConfig` fails iff backup is `DISABLED` while a
bucket is provided; when backup is active (mode present and non-disabled, or
a bucket provided) it resolves the bucket — reusing the provided one, else
creating an owned one — and returns a flat configuration holding only the
bucket ARN, the pipeline role ARN and the backup prefix, with no grant
performed and no nested buffering/logging/compression/encryption; otherwise
it returns absent and creates no backup resources. -/
theorem createBackupConfig_amended (scopeId : String) (props : DestinationProps)
    (roleArn : String) :
    ((∃ e, createBackupConfig scopeId props roleArn = .error e) ↔
      props.backup = some BackupMode.DISABLED ∧ props.backupBucket.isSome) ∧
    (¬(props.backup = some BackupMode.DISABLED ∧ props.backupBucket.isSome) →
      ((props.backup ≠ none ∧ props.backup ≠ some BackupMode.DISABLED) ∨
          props.backupBucket.isSome →
        ∃ bucket created,
          createBackupConfig scopeId props roleArn =
            .ok (some { bucketArn := bucket.bucketArn
                      , roleArn := roleArn
                      , pfx := props.backupPfx }
                , created, []) ∧
          ((∃ b, props.backupBucket = some b ∧ bucket = b ∧ created = []) ∨
            (props.backupBucket = none ∧ bucket = BucketRef.owned scopeId ∧
              created = [CreatedResource.bucket scopeId])))) ∧
    ((props.backup = none ∨ props.backup = some BackupMode.DISABLED) ∧
        props.backupBucket = none →
      createBackupConfig scopeId props roleArn = .ok (none, [], [])) := by
  refine ⟨?_, ?_, ?_⟩
  · constructor
    · rintro ⟨e, he⟩
      by_contra hc
      rw [createBackupConfig.eq_def, if_neg hc] at he
      split_ifs at he <;> simp_all
    · intro h
      exact ⟨_, by rw [createBackupConfig.eq_def, if_pos h]⟩
  · intro hne hact
    rw [createBackupConfig.eq_def, if_neg hne, if_pos hact]
    rcases hb : props.backupBucket with _ | b
    · exact ⟨BucketRef.owned scopeId, [CreatedResource.bucket scopeId],
        by simp [hb], Or.inr ⟨rfl, rfl, rfl⟩⟩
    · exact ⟨b, [], by simp [hb], Or.inl ⟨b, rfl, rfl, rfl⟩⟩
  · rintro ⟨hm, hb⟩
    rw [createBackupConfig.eq_def, if_neg (by simp [hb]),
      if_neg (by rcases hm with h | h <;> simp [h, hb])]

/-- The `BackupMode` validation of the `RedshiftDestination` constructor
(`redshift/destination.ts` lines 149-151): the FAILED mode is rejected; the
message interpolates `BackupMode[backup]`, the enum member's name. -/
def redshiftValidateBackupMode (backup : Option BackupMode) : Except String Unit :=
  if backup = some BackupMode.FAILED then
    .error "Redshift delivery stream destination only supports ENABLED and DISABLED BackupMode, given FAILED"
  else
    .ok ()

/-- The backup fields of `RedshiftDestination.createRedshiftConfig`
(`redshift/destination.ts` lines 270-271), guarded by the constructor's
backup-mode validation: `s3BackupConfiguration` is
`this.createBackupConfig(scope, deliveryStream)` and `s3BackupMode` is
`(backup === firehose.BackupMode.ALL) ? 'Enabled' : 'Disabled'`. -/
def redshiftBackupFields (scopeId : String) (props : DestinationProps) (roleArn : String) :
    Except String (Option S3DestinationConfigurationProperty × String) :=
  match redshiftValidateBackupMode props.backup with
  | .error e => .error e
  | .ok _ =>
    match createBackupConfig scopeId props roleArn with
    | .error e => .error e
    | .ok (cfg, _, _) =>
      .ok (cfg, if props.backup = some BackupMode.ALL then "Enabled" else "Disabled")

/-- C4 evaluated at the failing input: a Redshift destination given only a
backup bucket (no mode) emits a present `s3BackupConfiguration` together
with the flag `"Disabled"`, so the flag does not indicate backup enabled iff
the backup configuration fragment is present — contrary to the claim and to
the `DestinationProps.backup` documentation ("If `backupBucket` is provided,
this will be implicitly set to `BackupMode.ALL`"). -/
theorem redshiftBackupFields_bug :
    redshiftBackupFields "Redshift"
        { backupBucket := some (BucketRef.provided "arn:aws:s3:::backup") } "role" =
      .ok (some { bucketArn := "arn:aws:s3:::backup", roleArn := "role" }, "Disabled") := rfl

/-- C7 evaluated at the failing input: a buffering interval of 59 seconds is
rejected by both in-repository validators, and neither message contains the
provided value 59 (the `validateS3Props` message does cite the bound
[60, 900]; the `DestinationBase.createBufferingHints` message cites the
bound only as "1 and 15 minutes"). -/
theorem bufferingMessage_bug :
    (validateS3Props (some { seconds := 59 }) none =
      .error "Invalid bufferingInterval. Valid range: [60, 900]") ∧
    (createBufferingHints (some { seconds := 59 }) none =
      .error "Buffering interval must be between 1 and 15 minutes") ∧
    ¬ List.IsInfix "59".toList "Invalid bufferingInterval. Valid range: [60, 900]".toList ∧
    ¬ List.IsInfix "59".toList "Buffering interval must be between 1 and 15 minutes".toList :=
  ⟨rfl, rfl, by decide, by decide⟩

/-- The regex `/^_.*/` of `validateIndexName`: the name begins with an
underscore. -/
def matchesUnderscoreStart (s : String) : Bool :=
  match s.toList with
  | [] => false
  | c :: _ => c == '_'

/-- The regex `/[A-Z].*/` of `validateIndexName`: the name contains a
capital letter. -/
def matchesCapitalLetter (s : String) : Bool :=
  s.toList.any fun c => decide ('A' ≤ c) && decide (c ≤ 'Z')

/-- The regex `/,/` of `validateIndexName`: the name contains a comma. -/
def matchesComma (s : String) : Bool :=
  s.toList.any fun c => c == ','

/-- `ElasticsearchDomain.validateIndexName` (`src/unnamed/part_004` lines
190-206): the three checks run in order and the first violated one throws,
its message carrying the provided name. -/
def validateIndexName (indexName : String) : Except String Unit :=
  if matchesUnderscoreStart indexName then
    .error ("Elasticsearch index name must not begin with an underscore. indexName provided: "
      ++ indexName)
  else if matchesCapitalLetter indexName then
    .error ("Elasticsearch index name must be lower-case. indexName provided: " ++ indexName)
  else if matchesComma indexName then
    .error ("Elasticsearch index name must not contain commas. indexName provided: " ++ indexName)
  else
    .ok ()

/-- C8 fails as stated: the name `"_Index"` contains a capital letter, yet
construction fails with the underscore-prefix message, not the lower-case
message the claim assigns to every capital-containing name. -/
theorem validateIndexName_counterexample :
    matchesCapitalLetter "_Index" = true ∧
    validateIndexName "_Index" =
      .error "Elasticsearch index name must not begin with an underscore. indexName provided: _Index" ∧
    ("Elasticsearch index name must not begin with an underscore. indexName provided: _Index" ≠
      "Elasticsearch index name must be lower-case. indexName provided: _Index") :=
  ⟨by decide, rfl, by decide⟩

/-- C8 (amended). The three index-name checks apply in priority order —
underscore prefix, then capital letters, then commas — the first violated
one failing with its message (which includes the provided name), and a name
violating none of them is accepted. -/
theorem validateIndexName_amended (name : String) :
    (matchesUnderscoreStart name = true →
      validateIndexName name =
        .error ("Elasticsearch index name must not begin with an underscore. indexName provided: "
          ++ name)) ∧
    (matchesUnderscoreStart name = false → matchesCapitalLetter name = true →
      validateIndexName name =
        .error ("Elasticsearch index name must be lower-case. indexName provided: " ++ name)) ∧
    (matchesUnderscoreStart name = false → matchesCapitalLetter name = false →
      matchesComma name = true →
      validateIndexName name =
        .error ("Elasticsearch index name must not contain commas. indexName provided: " ++ name)) ∧
    (matchesUnderscoreStart name = false → matchesCapitalLetter name = false →
      matchesComma name = false →
      validateIndexName name = .ok ()) := by
  refine ⟨fun h1 => ?_, fun h1 h2 => ?_, fun h1 h2 h3 => ?_, fun h1 h2 h3 => ?_⟩ <;>
    simp [validateIndexName, h1] <;> simp [h2] <;> simp [h3]

/-- `StreamEncryption` of the delivery-stream module
(`src/unnamed/part_000` lines 164-179). -/
inductive StreamEncryption
  | UNENCRYPTED
  | CUSTOMER_MANAGED
  | AWS_OWNED
deriving Repr, DecidableEq

/-- The numeric value the TS enum member carries; `${props.encryption}` in
the error message interpolates this number. -/
def StreamEncryption.toNat : StreamEncryption → Nat
  | .UNENCRYPTED => 0
  | .CUSTOMER_MANAGED => 1
  | .AWS_OWNED => 2

/-- `CfnDeliveryStream`'s `DeliveryStreamEncryptionConfigurationInput`. -/
structure DeliveryStreamEncryptionConfigurationInput where
  keyArn : Option String
  keyType : String
deriving Repr, DecidableEq

/-- `CfnDeliveryStream`'s `KinesisStreamSourceConfiguration`. -/
structure KinesisStreamSourceConfiguration where
  kinesisStreamArn : String
  roleArn : String
deriving Repr, DecidableEq

/-- `DeliveryStreamProps` of `src/unnamed/part_000` (lines 184-236), the
references represented by their ARNs; the destination is settled by the
destination theorems above and is not repeated here. -/
structure DeliveryStreamProps where
  sourceStream : Option String := none
  role : Option String := none
  encryption : Option StreamEncryption := none
  encryptionKey : Option String := none
deriving Repr, DecidableEq

/-- The source/encryption fields of the emitted `CfnDeliveryStream`. -/
structure DeliveryStreamResourceProps where
  deliveryStreamEncryptionConfigurationInput :
    Option DeliveryStreamEncryptionConfigurationInput
  deliveryStreamType : String
  kinesisStreamSourceConfiguration : Option KinesisStreamSourceConfiguration
deriving Repr, DecidableEq

/-- The `DeliveryStream` constructor of `src/unnamed/part_000` (lines
321-359), restricted to its validation and the source/encryption wiring: the
only throw is AWS_OWNED/UNENCRYPTED encryption combined with an explicit
key; a customer-managed-mode stream without a key gets an owned key; the
encryption input and the source configuration are then emitted side by
side. -/
def mkDeliveryStream (scopeId : String) (props : DeliveryStreamProps) :
    Except String DeliveryStreamResourceProps :=
  let roleArn := props.role.getD (scopeId ++ "/Service Role/Arn")
  if (props.encryption = some StreamEncryption.AWS_OWNED ∨
      props.encryption = some StreamEncryption.UNENCRYPTED) ∧
      props.encryptionKey.isSome then
    .error ("Specified stream encryption as " ++
      (match props.encryption with
       | some enc => toString enc.toNat
       | none => "undefined") ++
      " but provided a customer-managed key")
  else
    let encryptionKey : Option String :=
      match props.encryptionKey with
      | some k => some k
      | none =>
        if props.encryption = some StreamEncryption.CUSTOMER_MANAGED then
          some (scopeId ++ "/Key/Arn")
        else none
    let encryptionConfig : Option DeliveryStreamEncryptionConfigurationInput :=
      if encryptionKey.isSome ∨ props.encryption = some StreamEncryption.AWS_OWNED then
        some { keyArn := encryptionKey
             , keyType := if encryptionKey.isSome then "CUSTOMER_MANAGED_CMK"
                          else "AWS_OWNED_CMK" }
      else none
    let streamSourceConfig : Option KinesisStreamSourceConfiguration :=
      props.sourceStream.map fun s => { kinesisStreamArn := s, roleArn := roleArn }
    .ok { deliveryStreamEncryptionConfigurationInput := encryptionConfig
        , deliveryStreamType :=
            if props.sourceStream.isSome then "KinesisStreamAsSource" else "DirectPut"
        , kinesisStreamSourceConfiguration := streamSourceConfig }

/-- C9 evaluated at the failing input: the constructor of
`src/unnamed/part_000` accepts a source stream together with
customer-managed encryption and emits both the encryption input and the
source configuration, while the claim (and this repository's test
"requesting encryption or providing a key when source is a stream throws an
error") says construction must fail. -/
theorem mkDeliveryStream_bug :
    mkDeliveryStream "Stack"
        { sourceStream := some "arn:aws:kinesis:stream"
        , encryption := some StreamEncryption.CUSTOMER_MANAGED } =
      .ok { deliveryStreamEncryptionConfigurationInput :=
              some { keyArn := some "Stack/Key/Arn", keyType := "CUSTOMER_MANAGED_CMK" }
          , deliveryStreamType := "KinesisStreamAsSource"
          , kinesisStreamSourceConfiguration :=
              some { kinesisStreamArn := "arn:aws:kinesis:stream"
                   , roleArn := "Stack/Service Role/Arn" } } := rfl

/-- `S3DestinationProps` of `s3.ts` (the destinations package): the shared
destination props plus the S3-specific fields. -/
structure S3DestinationProps extends DestinationProps where
  bucket : BucketRef
  pfx : Option String := none
  errorOutputPfx : Option String := none
  compressionFormat : Option String := none
  encryptionKey : Option String := none
  bufferingInterval : Option Duration := none
  bufferingSize : Option Size := none
deriving Repr, DecidableEq

/-- `createEncryptionConfig` of `s3.ts` (lines 100-104). -/
def createEncryptionConfig (encryptionKey : Option String) :
    EncryptionConfigurationProperty :=
  match encryptionKey with
  | some k => .kmsEncryptionConfig k
  | none => .noEncryptionConfig

/-- A binder instance of the S3 destination: its props plus the
`DestinationBase` per-instance log-group memo (which this `bind` never
touches). -/
structure S3DestinationInstance where
  s3Props : S3DestinationProps
  logGroupMemo : Option LogGroupRef := none
deriving Repr, DecidableEq

/-- `S3Destination.bind` (`s3.ts` lines 81-97): grants the delivery stream
read/write on the bucket and assembles `s3DestinationConfiguration` from the
props and the delivery stream's principal. -/
def s3DestinationBind (inst : S3DestinationInstance) (deliveryStreamRoleArn : String) :
    Except String (S3DestinationConfigurationProperty × List GrantAction) :=
  match createBufferingHints inst.s3Props.bufferingInterval inst.s3Props.bufferingSize with
  | .error e => .error e
  | .ok hints =>
    .ok ({ bucketArn := inst.s3Props.bucket.bucketArn
         , roleArn := deliveryStreamRoleArn
         , pfx := inst.s3Props.pfx
         , errorOutputPfx := inst.s3Props.errorOutputPfx
         , compressionFormat := inst.s3Props.compressionFormat
         , encryptionConfiguration := some (createEncryptionConfig inst.s3Props.encryptionKey)
         , bufferingHints := hints }
        , [GrantAction.grantReadWrite deliveryStreamRoleArn inst.s3Props.bucket.bucketArn])

/-- C10. Binding two distinct S3 binder instances built from identical
props against the same delivery stream yields structurally identical
configurations (here even equal configurations — this destination generates
no resources of its own): the result depends only on the props and the
bind options, not on any other instance state. -/
theorem s3DestinationBind_deterministic (a b : S3DestinationInstance)
    (roleArn : String) (h : a.s3Props = b.s3Props) :
    s3DestinationBind a roleArn = s3DestinationBind b roleArn := by
  simp only [s3DestinationBind, h]

/-- Witness for C10 at two concrete, distinct instances with identical
props (they differ in the log-group memo). -/
theorem s3DestinationBind_deterministic_witness :
    (S3DestinationInstance.s3Props
        { s3Props := { bucket := BucketRef.provided "arn:aws:s3:::data" } } =
      S3DestinationInstance.s3Props
        { s3Props := { bucket := BucketRef.provided "arn:aws:s3:::data" }
        , logGroupMemo := some (LogGroupRef.provided "lg") }) ∧
    s3DestinationBind { s3Props := { bucket := BucketRef.provided "arn:aws:s3:::data" } } "role" =
      s3DestinationBind
        { s3Props := { bucket := BucketRef.provided "arn:aws:s3:::data" }
        , logGroupMemo := some (LogGroupRef.provided "lg") } "role" :=
  ⟨rfl, s3DestinationBind_deterministic
    { s3Props := { bucket := BucketRef.provided "arn:aws:s3:::data" } }
    { s3Props := { bucket := BucketRef.provided "arn:aws:s3:::data" }
    , logGroupMemo := some (LogGroupRef.provided "lg") } "role" rfl⟩

end Firehose
